import Mathlib

/-!
Shallow embedding of the quack-but-for-LINUX Tauri backend:
src-tauri/src/platform.rs, src-tauri/src/commands.rs, src-tauri/src/main.rs.

OS and toolkit facilities that the source calls (shell execution via
std::process::Command, the dirs crate, lossy UTF-8 decoding, the Tauri window
registry) are modelled as explicit parameters or, where the doc comment says
so, from the spec.  Conditional compilation over target_os becomes an explicit
TargetOs argument.
-/

namespace Quack

/-- The build target OS, making the cfg(target_os = ...) conditional
compilation explicit: each build activates exactly one alternative. -/
inductive TargetOs where
  | windows
  | linux
  | macos
  | other
  deriving DecidableEq, Repr

/-- platform.rs: enum Platform with variants Windows, Linux, MacOs, Unknown. -/
inductive Platform where
  | Windows
  | Linux
  | MacOs
  | Unknown
  deriving DecidableEq, Repr

/-- platform.rs current_platform: a per-build constant selected by the
cfg(target_os) attributes; targets outside the closed set give Unknown. -/
def current_platform : TargetOs → Platform
  | .windows => .Windows
  | .linux => .Linux
  | .macos => .MacOs
  | .other => .Unknown

/-- platform.rs: enum PlatformError with Msg(String) and Io(std::io::Error);
the io::Error payload is modelled by its message text. -/
inductive PlatformError where
  | Msg (msg : String)
  | Io (err : String)
  deriving DecidableEq, Repr

/-- thiserror Display for PlatformError; commands.rs funnels every error
through to_string into a plain String. -/
def PlatformError.render : PlatformError → String
  | .Msg m => m
  | .Io e => "IO error: " ++ e

/-- The Unix path separator character (slash). -/
def sep : Char := Char.ofNat 47

/-- Slash-separated raw chunks of a character list; Rust Path components are
these chunks with the empty ones dropped. -/
def chunks : List Char → List (List Char)
  | [] => [[]]
  | c :: rest =>
    if c = sep then [] :: chunks rest
    else
      match chunks rest with
      | [] => [[c]]
      | h :: t => (c :: h) :: t

/-- A filesystem path value, compared the way Rust Path equality compares
paths on Unix: a root flag plus the sequence of nonempty components, so
trailing or doubled separators are immaterial.  Rust additionally normalizes
non-leading CurDir components away; that is not modelled, and no claim
exercises a literal dot component. -/
structure Path where
  absolute : Bool
  components : List String
  deriving DecidableEq, Repr

/-- Rust Path parsing on Unix, reduced to the component view: a path is
absolute when it starts with the separator, and its components are the
nonempty chunks between separators. -/
def Path.parse (s : String) : Path :=
  { absolute :=
      match s.data with
      | [] => false
      | c :: _ => c == sep
    components := ((chunks s.data).filter (fun l => l ≠ [])).map String.mk }

/-- Rust PathBuf::join (push) on Unix: an absolute right-hand side replaces
the path entirely, otherwise its components are appended. -/
def Path.join (base p : Path) : Path :=
  if p.absolute then p
  else { absolute := base.absolute, components := base.components ++ p.components }

/-- platform.rs app_config_dir; the dirs::config_dir() result is the OS
oracle argument (none when the OS has no resolvable base). -/
def app_config_dir (configDir : Option Path) (identifier : String) :
    Except PlatformError Path :=
  match configDir with
  | none => .error (.Msg "Could not resolve config directory")
  | some base => .ok (base.join (Path.parse identifier))

/-- platform.rs app_data_dir; the dirs::data_dir() result is the OS oracle
argument. -/
def app_data_dir (dataDir : Option Path) (identifier : String) :
    Except PlatformError Path :=
  match dataDir with
  | none => .error (.Msg "Could not resolve data directory")
  | some base => .ok (base.join (Path.parse identifier))

/-- std::process::Output: status.code() (none when the child was killed by a
signal and the OS reports no code) plus the raw stdout and stderr bytes. -/
structure Output where
  code : Option Int
  stdout : List Nat
  stderr : List Nat
  deriving DecidableEq, Repr

/-- An interpreter invocation: the program and its argument list. -/
abbrev ShellInvocation := String × List String

/-- The interpreter the cfg branches of spawn_shell and run_shell_capture
select: cmd /C on Windows, sh -c everywhere else. -/
def shellInvocation (t : TargetOs) (command : String) : ShellInvocation :=
  match t with
  | .windows => ("cmd", ["/C", command])
  | _ => ("sh", ["-c", command])

/-- platform.rs spawn_shell: Command::spawn is the OS oracle; an OS error
propagates through the question-mark operator into PlatformError::Io. -/
def spawn_shell (t : TargetOs) (osSpawn : ShellInvocation → Except String Unit)
    (command : String) : Except PlatformError Unit :=
  match osSpawn (shellInvocation t command) with
  | .error e => .error (.Io e)
  | .ok _ => .ok ()

/-- platform.rs run_shell_capture: Command::output is the OS oracle and
String::from_utf8_lossy the decoding oracle; on success the exit code is
status.code().unwrap_or(-1). -/
def run_shell_capture (t : TargetOs) (osRun : ShellInvocation → Except String Output)
    (decode : List Nat → String) (command : String) :
    Except PlatformError (Int × String × String) :=
  match osRun (shellInvocation t command) with
  | .error e => .error (.Io e)
  | .ok output =>
    .ok (output.code.getD (-1), decode output.stdout, decode output.stderr)

/-- tauri PhysicalSize. -/
structure PhysicalSize (α : Type) where
  width : α
  height : α
  deriving DecidableEq, Repr

/-- tauri PhysicalPosition. -/
structure PhysicalPosition (α : Type) where
  x : α
  y : α
  deriving DecidableEq, Repr

/-- Modelled from the spec: the Tauri WebviewWindow handle, the external
collaborator exposing settable presentation properties; this record is the
observable state behind the five window mutations.  The geometry fields are
f64 in the source; since the core only stores them, they are an abstract
type α here. -/
structure WebviewWindow (α : Type) where
  alwaysOnTop : Bool
  decorations : Bool
  shadow : Bool
  size : PhysicalSize α
  position : PhysicalPosition α
  deriving DecidableEq, Repr

variable {α : Type}

/-- Modelled from the spec: the toolkit setter behind platform.rs
set_always_on_top stores the flag on the handle and succeeds; the source wraps
a toolkit error into PlatformError::Msg, a branch the settable-properties
model never takes.  State passing replaces in-place mutation. -/
def set_always_on_top (w : WebviewWindow α) (enabled : Bool) :
    Except PlatformError (WebviewWindow α) :=
  .ok { w with alwaysOnTop := enabled }

/-- Modelled from the spec: toolkit setter behind platform.rs set_decorations. -/
def set_decorations (w : WebviewWindow α) (enabled : Bool) :
    Except PlatformError (WebviewWindow α) :=
  .ok { w with decorations := enabled }

/-- Modelled from the spec: toolkit setter behind platform.rs set_shadow. -/
def set_shadow (w : WebviewWindow α) (enabled : Bool) :
    Except PlatformError (WebviewWindow α) :=
  .ok { w with shadow := enabled }

/-- Modelled from the spec: toolkit set_size behind platform.rs resize; the
source builds PhysicalSize::new(width, height). -/
def resize (w : WebviewWindow α) (width height : α) :
    Except PlatformError (WebviewWindow α) :=
  .ok { w with size := ⟨width, height⟩ }

/-- Modelled from the spec: toolkit set_position behind platform.rs
move_window; the source builds PhysicalPosition::new(x, y). -/
def move_window (w : WebviewWindow α) (x y : α) :
    Except PlatformError (WebviewWindow α) :=
  .ok { w with position := ⟨x, y⟩ }

/-- The externally owned registry of live windows keyed by label: the map
behind tauri AppHandle.get_webview_window. -/
abbrev Registry (α : Type) := List (String × WebviewWindow α)

/-- tauri AppHandle.get_webview_window: look a label up in the registry. -/
def getWebviewWindow : Registry α → String → Option (WebviewWindow α)
  | [], _ => none
  | p :: rest, lbl => if p.1 = lbl then some p.2 else getWebviewWindow rest lbl

/-- State-passing view of mutating the shared handle registered under a
label: the registry now holds the updated window. -/
def setWindow (reg : Registry α) (lbl : String) (w : WebviewWindow α) : Registry α :=
  reg.map (fun p => if p.1 = lbl then (p.1, w) else p)

/-- The single-quote character used by the window-not-found message. -/
def quoteChar : Char := Char.ofNat 39

/-- commands.rs get_window error text: the word window, the label wrapped in
single quotes, then not found. -/
def windowNotFoundMsg (lbl : String) : String :=
  "window " ++ quoteChar.toString ++ lbl ++ quoteChar.toString ++ " not found"

/-- commands.rs get_window label defaulting: unwrap_or_else gives "main". -/
def resolveLabel (label : Option String) : String := label.getD "main"

/-- commands.rs get_window: resolve the optional label, then look the window
up, failing with the not-found message naming the resolved label. -/
def get_window (reg : Registry α) (label : Option String) :
    Except String (WebviewWindow α) :=
  match getWebviewWindow reg (resolveLabel label) with
  | none => .error (windowNotFoundMsg (resolveLabel label))
  | some w => .ok w

/-- commands.rs WindowFlag payload. -/
structure WindowFlag where
  label : Option String
  value : Bool

/-- commands.rs WindowSize payload (f64 fields abstracted to α). -/
structure WindowSize (α : Type) where
  label : Option String
  width : α
  height : α

/-- commands.rs WindowPosition payload (f64 fields abstracted to α). -/
structure WindowPosition (α : Type) where
  label : Option String
  x : α
  y : α

/-- commands.rs window_set_always_on_top: look the window up (an error there
returns before any mutation), apply the platform setter, and thread the
mutated handle back into the registry. -/
def window_set_always_on_top (reg : Registry α) (payload : WindowFlag) :
    Except String Unit × Registry α :=
  match get_window reg payload.label with
  | .error e => (.error e, reg)
  | .ok w =>
    match set_always_on_top w payload.value with
    | .error e => (.error e.render, reg)
    | .ok w2 => (.ok (), setWindow reg (resolveLabel payload.label) w2)

/-- commands.rs window_set_decorations. -/
def window_set_decorations (reg : Registry α) (payload : WindowFlag) :
    Except String Unit × Registry α :=
  match get_window reg payload.label with
  | .error e => (.error e, reg)
  | .ok w =>
    match set_decorations w payload.value with
    | .error e => (.error e.render, reg)
    | .ok w2 => (.ok (), setWindow reg (resolveLabel payload.label) w2)

/-- commands.rs window_set_shadow. -/
def window_set_shadow (reg : Registry α) (payload : WindowFlag) :
    Except String Unit × Registry α :=
  match get_window reg payload.label with
  | .error e => (.error e, reg)
  | .ok w =>
    match set_shadow w payload.value with
    | .error e => (.error e.render, reg)
    | .ok w2 => (.ok (), setWindow reg (resolveLabel payload.label) w2)

/-- commands.rs window_resize. -/
def window_resize (reg : Registry α) (payload : WindowSize α) :
    Except String Unit × Registry α :=
  match get_window reg payload.label with
  | .error e => (.error e, reg)
  | .ok w =>
    match resize w payload.width payload.height with
    | .error e => (.error e.render, reg)
    | .ok w2 => (.ok (), setWindow reg (resolveLabel payload.label) w2)

/-- commands.rs window_move. -/
def window_move (reg : Registry α) (payload : WindowPosition α) :
    Except String Unit × Registry α :=
  match get_window reg payload.label with
  | .error e => (.error e, reg)
  | .ok w =>
    match move_window w payload.x payload.y with
    | .error e => (.error e.render, reg)
    | .ok w2 => (.ok (), setWindow reg (resolveLabel payload.label) w2)

/-- The five window mutations as one type, to state their joint algebra. -/
inductive WinOp (α : Type) where
  | setAlwaysOnTop (value : Bool)
  | setDecorations (value : Bool)
  | setShadow (value : Bool)
  | resize (width height : α)
  | move (x y : α)

/-- Dispatch a WinOp to the corresponding command of commands.rs. -/
def applyWinOp (reg : Registry α) (label : Option String) :
    WinOp α → Except String Unit × Registry α
  | .setAlwaysOnTop v => window_set_always_on_top reg ⟨label, v⟩
  | .setDecorations v => window_set_decorations reg ⟨label, v⟩
  | .setShadow v => window_set_shadow reg ⟨label, v⟩
  | .resize w h => window_resize reg ⟨label, w, h⟩
  | .move x y => window_move reg ⟨label, x, y⟩

/-- The window property a WinOp touches. -/
inductive WinProp where
  | alwaysOnTop
  | decorations
  | shadow
  | size
  | position
  deriving DecidableEq, Repr

/-- Which property each of the five operations mutates. -/
def WinOp.prop : WinOp α → WinProp
  | .setAlwaysOnTop _ => .alwaysOnTop
  | .setDecorations _ => .decorations
  | .setShadow _ => .shadow
  | .resize _ _ => .size
  | .move _ _ => .position

/-- The pure window update a WinOp performs (what the toolkit setter stores). -/
def WinOp.update : WinOp α → WebviewWindow α → WebviewWindow α
  | .setAlwaysOnTop v, w => { w with alwaysOnTop := v }
  | .setDecorations v, w => { w with decorations := v }
  | .setShadow v, w => { w with shadow := v }
  | .resize wd ht, w => { w with size := ⟨wd, ht⟩ }
  | .move x y, w => { w with position := ⟨x, y⟩ }

/-- The lookup-then-update skeleton all five commands share. -/
def modifyReg (reg : Registry α) (label : Option String)
    (f : WebviewWindow α → WebviewWindow α) : Except String Unit × Registry α :=
  match getWebviewWindow reg (resolveLabel label) with
  | none => (.error (windowNotFoundMsg (resolveLabel label)), reg)
  | some w => (.ok (), setWindow reg (resolveLabel label) (f w))

/-- The registry effect of a successful mutation, ignoring the status: update
the window under the label if present, otherwise leave the registry alone. -/
def updateReg (reg : Registry α) (lbl : String)
    (f : WebviewWindow α → WebviewWindow α) : Registry α :=
  match getWebviewWindow reg lbl with
  | none => reg
  | some w => setWindow reg lbl (f w)

/-- main.rs generate_handler: the eleven commands the dispatcher exposes. -/
inductive TauriCommand where
  | get_platform
  | open_path_or_url
  | spawn
  | run
  | get_paths
  | window_set_always_on_top
  | window_set_decorations
  | window_set_shadow
  | window_resize
  | window_move
  | quit_app
  deriving DecidableEq, Repr

/-- Which command bodies end the process instead of returning a value or an
error: reading commands.rs, only quit_app calls app.exit. -/
def terminatesProcess : TauriCommand → Bool
  | .quit_app => true
  | _ => false

/-- Process termination carrying an exit status: the observable effect of a
terminal operation. -/
structure AppExit where
  code : Int
  deriving DecidableEq, Repr

/-- commands.rs quit_app, which calls app.exit(0).  Modelled from the spec:
tauri AppHandle.exit is the toolkit's terminal operation, immediately ending
the process with the given status code; control does not return. -/
def quit_app : AppExit := ⟨0⟩

/-- Claim C2 as stated: on every successful capture the exit code equals the
code the OS reports, and is -1 exactly when the OS reports no code. -/
def RunCapturedClaim : Prop :=
  ∀ (t : TargetOs) (osRun : ShellInvocation → Except String Output)
    (decode : List Nat → String) (command : String) (out : Output),
    osRun (shellInvocation t command) = .ok out →
    ∃ code sout serr,
      run_shell_capture t osRun decode command = .ok (code, sout, serr) ∧
      (∀ c : Int, out.code = some c → code = c) ∧
      (code = -1 ↔ out.code = none)

/-- Claim C4 as stated: whenever a base directory is available, every
identifier is appended under it as a single final path segment. -/
def AppDirClaim : Prop :=
  ∀ (base : Path) (identifier : String) (p : Path),
    (app_config_dir (some base) identifier = .ok p ∨
      app_data_dir (some base) identifier = .ok p) →
    p.absolute = base.absolute ∧ p.components = base.components ++ [identifier]

/-- A sample window over Int geometry, for concrete checks. -/
def demoWindow : WebviewWindow Int :=
  { alwaysOnTop := false
    decorations := true
    shadow := false
    size := ⟨400, 300⟩
    position := ⟨10, 20⟩ }

/-- A sample one-window registry holding the primary window. -/
def demoReg : Registry Int := [("main", demoWindow)]

theorem setWindow_cons (p : String × WebviewWindow α) (rest : Registry α)
    (lbl : String) (w : WebviewWindow α) :
    setWindow (p :: rest) lbl w =
      (if p.1 = lbl then (p.1, w) else p) :: setWindow rest lbl w := rfl

theorem getWebviewWindow_cons (p : String × WebviewWindow α) (rest : Registry α)
    (lbl : String) :
    getWebviewWindow (p :: rest) lbl =
      if p.1 = lbl then some p.2 else getWebviewWindow rest lbl := rfl

theorem getWebviewWindow_setWindow (reg : Registry α) (lbl : String)
    (w : WebviewWindow α) :
    getWebviewWindow (setWindow reg lbl w) lbl =
      (getWebviewWindow reg lbl).map (fun _ => w) := by
  induction reg with
  | nil => rfl
  | cons p rest ih =>
    by_cases hk : p.1 = lbl
    · simp [setWindow_cons, getWebviewWindow_cons, hk]
    · simp only [setWindow_cons, getWebviewWindow_cons, if_neg hk]
      exact ih

theorem getWebviewWindow_setWindow_ne (reg : Registry α) {lbl lbl2 : String}
    (h : lbl ≠ lbl2) (w : WebviewWindow α) :
    getWebviewWindow (setWindow reg lbl2 w) lbl = getWebviewWindow reg lbl := by
  induction reg with
  | nil => rfl
  | cons p rest ih =>
    by_cases hk : p.1 = lbl2
    · have hne : p.1 ≠ lbl := fun hEq => h (hEq.symm.trans hk)
      simp only [setWindow_cons, getWebviewWindow_cons, if_pos hk, if_neg hne]
      exact ih
    · simp only [setWindow_cons, getWebviewWindow_cons, if_neg hk]
      by_cases hl : p.1 = lbl
      · simp [if_pos hl]
      · simp only [if_neg hl]
        exact ih

theorem setWindow_setWindow (reg : Registry α) (lbl : String)
    (w w2 : WebviewWindow α) :
    setWindow (setWindow reg lbl w) lbl w2 = setWindow reg lbl w2 := by
  induction reg with
  | nil => rfl
  | cons p rest ih =>
    by_cases hk : p.1 = lbl
    · simp only [setWindow_cons, if_pos hk]
      exact congrArg _ ih
    · simp only [setWindow_cons, if_neg hk]
      exact congrArg _ ih

theorem setWindow_comm (reg : Registry α) {lbl lbl2 : String} (h : lbl ≠ lbl2)
    (w w2 : WebviewWindow α) :
    setWindow (setWindow reg lbl w) lbl2 w2 = setWindow (setWindow reg lbl2 w2) lbl w := by
  induction reg with
  | nil => rfl
  | cons p rest ih =>
    by_cases hk : p.1 = lbl
    · have hne : p.1 ≠ lbl2 := fun hEq => h (hk.symm.trans hEq)
      simp only [setWindow_cons, if_pos hk, if_neg hne]
      exact congrArg _ ih
    · by_cases hl : p.1 = lbl2
      · simp only [setWindow_cons, if_neg hk, if_pos hl]
        exact congrArg _ ih
      · simp only [setWindow_cons, if_neg hk, if_neg hl]
        exact congrArg _ ih

theorem setWindow_of_none (reg : Registry α) {lbl : String}
    (h : getWebviewWindow reg lbl = none) (w : WebviewWindow α) :
    setWindow reg lbl w = reg := by
  induction reg with
  | nil => rfl
  | cons p rest ih =>
    by_cases hk : p.1 = lbl
    · simp [getWebviewWindow_cons, if_pos hk] at h
    · simp only [getWebviewWindow_cons, if_neg hk] at h
      simp only [setWindow_cons, if_neg hk]
      rw [ih h]

theorem string_append_assoc (a b c : String) : a ++ b ++ c = a ++ (b ++ c) := by
  cases a with
  | mk la =>
    cases b with
    | mk lb =>
      cases c with
      | mk lc =>
        show String.mk (la ++ lb ++ lc) = String.mk (la ++ (lb ++ lc))
        rw [List.append_assoc]

theorem windowNotFoundMsg_names_label (lbl : String) :
    windowNotFoundMsg lbl =
      ("window " ++ quoteChar.toString) ++ lbl ++ (quoteChar.toString ++ " not found") := by
  simp only [windowNotFoundMsg, string_append_assoc]

theorem getWebviewWindow_updateReg_of_some (reg : Registry α) {lbl : String}
    {w0 : WebviewWindow α} (h : getWebviewWindow reg lbl = some w0)
    (f : WebviewWindow α → WebviewWindow α) :
    getWebviewWindow (updateReg reg lbl f) lbl = some (f w0) := by
  simp [updateReg, h, getWebviewWindow_setWindow]

theorem updateReg_updateReg_of_some (reg : Registry α) {lbl : String}
    {w0 : WebviewWindow α} (h : getWebviewWindow reg lbl = some w0)
    (f g : WebviewWindow α → WebviewWindow α) :
    updateReg (updateReg reg lbl f) lbl g = setWindow reg lbl (g (f w0)) := by
  have h2 : getWebviewWindow (setWindow reg lbl (f w0)) lbl = some (f w0) := by
    rw [getWebviewWindow_setWindow, h]
    rfl
  simp [updateReg, h, h2, setWindow_setWindow]

theorem updateReg_comm (reg : Registry α) (L1 L2 : String)
    (f g : WebviewWindow α → WebviewWindow α)
    (hfg : ∀ w, f (g w) = g (f w)) :
    updateReg (updateReg reg L1 f) L2 g = updateReg (updateReg reg L2 g) L1 f := by
  by_cases hl : L1 = L2
  · subst hl
    cases h : getWebviewWindow reg L1 with
    | none => simp [updateReg, h]
    | some w =>
      rw [updateReg_updateReg_of_some reg h f g, updateReg_updateReg_of_some reg h g f,
        hfg w]
  · cases h1 : getWebviewWindow reg L1 with
    | none =>
      cases h2 : getWebviewWindow reg L2 with
      | none => simp [updateReg, h1, h2]
      | some w2 =>
        have h1b : getWebviewWindow (setWindow reg L2 (g w2)) L1 = none := by
          rw [getWebviewWindow_setWindow_ne reg hl (g w2)]
          exact h1
        simp [updateReg, h1, h2, h1b]
    | some w1 =>
      cases h2 : getWebviewWindow reg L2 with
      | none =>
        have h2b : getWebviewWindow (setWindow reg L1 (f w1)) L2 = none := by
          rw [getWebviewWindow_setWindow_ne reg (fun hEq => hl hEq.symm) (f w1)]
          exact h2
        simp [updateReg, h1, h2, h2b]
      | some w2 =>
        have h2b : getWebviewWindow (setWindow reg L1 (f w1)) L2 = some w2 := by
          rw [getWebviewWindow_setWindow_ne reg (fun hEq => hl hEq.symm) (f w1)]
          exact h2
        have h1b : getWebviewWindow (setWindow reg L2 (g w2)) L1 = some w1 := by
          rw [getWebviewWindow_setWindow_ne reg hl (g w2)]
          exact h1
        simp only [updateReg, h1, h2, h1b, h2b]
        exact setWindow_comm reg hl (f w1) (g w2)

theorem modifyReg_snd (reg : Registry α) (label : Option String)
    (f : WebviewWindow α → WebviewWindow α) :
    (modifyReg reg label f).2 = updateReg reg (resolveLabel label) f := by
  cases h : getWebviewWindow reg (resolveLabel label) <;>
    simp [modifyReg, updateReg, h]

theorem modifyReg_idem (reg : Registry α) (label : Option String)
    (f : WebviewWindow α → WebviewWindow α) (hf : ∀ w, f (f w) = f w) :
    modifyReg (modifyReg reg label f).2 label f = modifyReg reg label f := by
  cases h : getWebviewWindow reg (resolveLabel label) with
  | none => simp [modifyReg, h]
  | some w =>
    have h2 : getWebviewWindow (setWindow reg (resolveLabel label) (f w))
        (resolveLabel label) = some (f w) := by
      rw [getWebviewWindow_setWindow, h]
      rfl
    simp [modifyReg, h, h2, setWindow_setWindow, hf w]

theorem applyWinOp_eq_modifyReg (reg : Registry α) (label : Option String)
    (op : WinOp α) :
    applyWinOp reg label op = modifyReg reg label op.update := by
  cases op <;>
    · simp only [applyWinOp, window_set_always_on_top, window_set_decorations,
        window_set_shadow, window_resize, window_move, get_window, modifyReg,
        WinOp.update, set_always_on_top, set_decorations, set_shadow, resize,
        move_window]
      cases h : getWebviewWindow reg (resolveLabel label) <;> simp [h]

theorem WinOp.update_idem (op : WinOp α) (w : WebviewWindow α) :
    op.update (op.update w) = op.update w := by
  cases op <;> rfl

theorem WinOp.update_comm {o1 o2 : WinOp α} (h : o1.prop ≠ o2.prop)
    (w : WebviewWindow α) :
    o1.update (o2.update w) = o2.update (o1.update w) := by
  cases o1 <;> cases o2 <;> first | rfl | exact absurd rfl h

theorem window_resize_snd (reg : Registry α) (pay : WindowSize α) :
    (window_resize reg pay).2 =
      updateReg reg (resolveLabel pay.label)
        (fun w => { w with size := ⟨pay.width, pay.height⟩ }) := by
  cases h : getWebviewWindow reg (resolveLabel pay.label) <;>
    simp [window_resize, get_window, resize, updateReg, h]

theorem window_move_snd (reg : Registry α) (pay : WindowPosition α) :
    (window_move reg pay).2 =
      updateReg reg (resolveLabel pay.label)
        (fun w => { w with position := ⟨pay.x, pay.y⟩ }) := by
  cases h : getWebviewWindow reg (resolveLabel pay.label) <;>
    simp [window_move, get_window, move_window, updateReg, h]

/-- C1: for every window-mutation command, a window_label whose resolved label
is not in the registry produces an error whose message names that label, and
the registry is left untouched: the lookup fails before any mutation is
attempted. -/
theorem missing_window_rejected {α : Type} (reg : Registry α)
    (label : Option String) (b : Bool) (wd ht px py : α)
    (h : getWebviewWindow reg (resolveLabel label) = none) :
    window_set_always_on_top reg ⟨label, b⟩ =
        (.error (windowNotFoundMsg (resolveLabel label)), reg) ∧
    window_set_decorations reg ⟨label, b⟩ =
        (.error (windowNotFoundMsg (resolveLabel label)), reg) ∧
    window_set_shadow reg ⟨label, b⟩ =
        (.error (windowNotFoundMsg (resolveLabel label)), reg) ∧
    window_resize reg ⟨label, wd, ht⟩ =
        (.error (windowNotFoundMsg (resolveLabel label)), reg) ∧
    window_move reg ⟨label, px, py⟩ =
        (.error (windowNotFoundMsg (resolveLabel label)), reg) ∧
    (∃ p q, windowNotFoundMsg (resolveLabel label) = p ++ resolveLabel label ++ q) := by
  refine ⟨?_, ?_, ?_, ?_, ?_,
    ⟨"window " ++ quoteChar.toString, quoteChar.toString ++ " not found",
      windowNotFoundMsg_names_label (resolveLabel label)⟩⟩
  · simp [window_set_always_on_top, get_window, h]
  · simp [window_set_decorations, get_window, h]
  · simp [window_set_shadow, get_window, h]
  · simp [window_resize, get_window, h]
  · simp [window_move, get_window, h]

/-- Concrete run of missing_window_rejected on the empty registry. -/
theorem missing_window_rejected_check :
    getWebviewWindow ([] : Registry Int) (resolveLabel (some "ghost")) = none ∧
    window_set_always_on_top ([] : Registry Int) ⟨some "ghost", true⟩ =
      (.error (windowNotFoundMsg "ghost"), []) :=
  ⟨rfl,
    (missing_window_rejected ([] : Registry Int) (some "ghost") true 0 0 0 0 rfl).1⟩

/-- C5: quit_app terminates the process with success status 0, and it is the
only command whose body ends the process instead of reporting its outcome as
a returned value or error. -/
theorem quit_app_terminal :
    quit_app.code = 0 ∧
    (∀ c : TauriCommand, terminatesProcess c = true ↔ c = TauriCommand.quit_app) := by
  refine ⟨rfl, fun c => ?_⟩
  cases c <;> simp [terminatesProcess]

/-- C6: current_platform is total over build targets and maps each target to
the matching enumeration value, with targets outside the closed set mapped to
Unknown; its result is always one of the four values. -/
theorem current_platform_consistent :
    current_platform TargetOs.windows = Platform.Windows ∧
    current_platform TargetOs.linux = Platform.Linux ∧
    current_platform TargetOs.macos = Platform.MacOs ∧
    current_platform TargetOs.other = Platform.Unknown ∧
    (∀ t : TargetOs,
      current_platform t = Platform.Windows ∨ current_platform t = Platform.Linux ∨
      current_platform t = Platform.MacOs ∨ current_platform t = Platform.Unknown) := by
  refine ⟨rfl, rfl, rfl, rfl, fun t => ?_⟩
  cases t <;> simp [current_platform]

/-- C3: when the OS cannot start the interpreter, spawn_shell and
run_shell_capture both return the launch error; run_shell_capture never turns
such a failure into a successful capture result. -/
theorem launch_failure_is_error (t : TargetOs)
    (osSpawn : ShellInvocation → Except String Unit)
    (osRun : ShellInvocation → Except String Output)
    (decode : List Nat → String) (command e1 e2 : String)
    (hs : osSpawn (shellInvocation t command) = .error e1)
    (hr : osRun (shellInvocation t command) = .error e2) :
    spawn_shell t osSpawn command = .error (.Io e1) ∧
    run_shell_capture t osRun decode command = .error (.Io e2) ∧
    (∀ r : Int × String × String, run_shell_capture t osRun decode command ≠ .ok r) := by
  refine ⟨by simp [spawn_shell, hs], by simp [run_shell_capture, hr], fun r hok => ?_⟩
  simp [run_shell_capture, hr] at hok

/-- Concrete run of launch_failure_is_error with a not-found interpreter. -/
theorem launch_failure_is_error_check :
    ((fun _ : ShellInvocation => (.error "No such file or directory" : Except String Unit))
        (shellInvocation TargetOs.linux "zzz") = .error "No such file or directory") ∧
    spawn_shell TargetOs.linux (fun _ => .error "No such file or directory") "zzz" =
      .error (.Io "No such file or directory") :=
  ⟨rfl,
    (launch_failure_is_error TargetOs.linux
      (fun _ => .error "No such file or directory")
      (fun _ => .error "No such file or directory") (fun _ => "") "zzz"
      "No such file or directory" "No such file or directory" rfl rfl).1⟩

/-- C2 as frozen is false: run_shell_capture maps an OS-reported exit code of
-1 to the same -1 it uses when the OS reports no code, so -1 does not occur
exactly when there is no code. -/
theorem run_captured_sentinel_conflated : ¬ RunCapturedClaim := by
  intro hcl
  obtain ⟨code, sout, serr, hrun, hcode, hiff⟩ :=
    hcl TargetOs.linux (fun _ => .ok ⟨some (-1), [], []⟩) (fun _ => "") "true"
      ⟨some (-1), [], []⟩ rfl
  have hc : code = -1 := hcode (-1) rfl
  exact Option.noConfusion (hiff.mp hc)

/-- C2 amended: on a successful capture the exit code is the OS-reported code
when one exists and -1 when the OS reports none (so -1 also arises from a
reported code of -1); a nonzero reported code still yields a success result
carrying that code, not an error. -/
theorem run_captured_exit_code (t : TargetOs)
    (osRun : ShellInvocation → Except String Output) (decode : List Nat → String)
    (command : String) (out : Output)
    (h : osRun (shellInvocation t command) = .ok out) :
    run_shell_capture t osRun decode command =
      .ok (out.code.getD (-1), decode out.stdout, decode out.stderr) ∧
    (out.code = none → out.code.getD (-1) = -1) ∧
    (∀ c : Int, out.code = some c → out.code.getD (-1) = c) := by
  exact ⟨by simp [run_shell_capture, h], fun hn => by simp [hn],
    fun c hc => by simp [hc]⟩

/-- Concrete run of run_captured_exit_code: a child exiting 3 yields a success
result carrying exit code 3. -/
theorem run_captured_exit_code_check :
    (fun _ : ShellInvocation => (.ok ⟨some 3, [], []⟩ : Except String Output))
        (shellInvocation TargetOs.linux "exit 3") = .ok ⟨some 3, [], []⟩ ∧
    run_shell_capture TargetOs.linux (fun _ => .ok ⟨some 3, [], []⟩) (fun _ => "")
      "exit 3" = .ok (3, "", "") :=
  ⟨rfl,
    (run_captured_exit_code TargetOs.linux (fun _ => .ok ⟨some 3, [], []⟩)
      (fun _ => "") "exit 3" ⟨some 3, [], []⟩ rfl).1⟩

theorem chunks_cons (c : Char) (rest : List Char) :
    chunks (c :: rest) =
      if c = sep then [] :: chunks rest
      else
        match chunks rest with
        | [] => [[c]]
        | h :: t => (c :: h) :: t := rfl

theorem chunks_no_sep : ∀ cs : List Char, cs ≠ [] → sep ∉ cs → chunks cs = [cs] := by
  intro cs
  induction cs with
  | nil => intro h _; exact absurd rfl h
  | cons c rest ih =>
    intro _ hsep
    rw [List.mem_cons] at hsep
    push_neg at hsep
    obtain ⟨h1, h2⟩ := hsep
    have hc : c ≠ sep := fun hEq => h1 hEq.symm
    cases rest with
    | nil =>
      rw [chunks_cons, if_neg hc]
      rfl
    | cons d ds =>
      have hrec : chunks (d :: ds) = [d :: ds] := ih (by simp) h2
      rw [chunks_cons, if_neg hc, hrec]

theorem parse_plain_segment (id : String) (hne : id ≠ "") (hsep : sep ∉ id.data) :
    Path.parse id = ⟨false, [id]⟩ := by
  obtain ⟨cs⟩ := id
  have hcs : cs ≠ [] := fun hEq => hne (by rw [hEq])
  cases cs with
  | nil => exact absurd rfl hcs
  | cons c rest =>
    have hch : chunks (c :: rest) = [c :: rest] :=
      chunks_no_sep (c :: rest) (by simp) hsep
    have hc : c ≠ sep := by
      intro hEq
      exact absurd (List.mem_cons_self c rest) (hEq ▸ hsep)
    simp [Path.parse, hch, hc]

/-- C4 as frozen is false: an identifier that is an absolute path is not
appended under the base directory; Rust join replaces the base with it. -/
theorem app_dirs_not_always_appended : ¬ AppDirClaim := by
  intro hcl
  have h := hcl ⟨true, ["home", "user", ".config"]⟩ "/other" ⟨true, ["other"]⟩
    (Or.inl rfl)
  exact absurd h.2 (by decide)

/-- C4 amended: for every identifier that is a single nonempty separator-free
segment, app_config_dir and app_data_dir append it as the final path segment
under the OS-conventional base when the OS supplies one, and return a
descriptive error when it cannot; both are pure path computations. -/
theorem app_dirs_append_identifier (base : Path) (id : String)
    (hne : id ≠ "") (hsep : sep ∉ id.data) :
    app_config_dir (some base) id = .ok ⟨base.absolute, base.components ++ [id]⟩ ∧
    app_data_dir (some base) id = .ok ⟨base.absolute, base.components ++ [id]⟩ ∧
    app_config_dir none id = .error (.Msg "Could not resolve config directory") ∧
    app_data_dir none id = .error (.Msg "Could not resolve data directory") := by
  have hp := parse_plain_segment id hne hsep
  refine ⟨?_, ?_, rfl, rfl⟩ <;> simp [app_config_dir, app_data_dir, Path.join, hp]

/-- Concrete run of app_dirs_append_identifier on a reverse-domain identifier. -/
theorem app_dirs_append_identifier_check :
    ("com.example.app" ≠ "" ∧ sep ∉ "com.example.app".data) ∧
    app_config_dir (some ⟨true, ["home", "user", ".config"]⟩) "com.example.app" =
      .ok ⟨true, ["home", "user", ".config", "com.example.app"]⟩ :=
  ⟨⟨by decide, by decide⟩,
    (app_dirs_append_identifier ⟨true, ["home", "user", ".config"]⟩
      "com.example.app" (by decide) (by decide)).1⟩

/-- C10: neither directory helper validates the identifier; the result is
exactly the base joined with the parsed identifier, so an empty identifier
yields the base itself and an absolute identifier replaces the base entirely. -/
theorem app_dirs_join_verbatim (base : Path) (id : String) :
    app_config_dir (some base) id = .ok (base.join (Path.parse id)) ∧
    app_data_dir (some base) id = .ok (base.join (Path.parse id)) ∧
    app_config_dir (some base) "" = .ok base ∧
    app_data_dir (some base) "" = .ok base ∧
    ((Path.parse id).absolute = true →
      app_config_dir (some base) id = .ok (Path.parse id) ∧
      app_data_dir (some base) id = .ok (Path.parse id)) := by
  have hempty : base.join (Path.parse "") = base := by
    have hp : Path.parse "" = ⟨false, []⟩ := rfl
    rw [hp]
    cases base with
    | mk a c => simp [Path.join]
  refine ⟨rfl, rfl, by simp [app_config_dir, hempty], by simp [app_data_dir, hempty],
    fun habs => ?_⟩
  constructor <;> simp [app_config_dir, app_data_dir, Path.join, habs]

/-- Concrete run of app_dirs_join_verbatim on an absolute identifier. -/
theorem app_dirs_join_verbatim_check :
    (Path.parse "/etc/app").absolute = true ∧
    app_config_dir (some ⟨true, ["home"]⟩) "/etc/app" = .ok (Path.parse "/etc/app") :=
  ⟨rfl, ((app_dirs_join_verbatim ⟨true, ["home"]⟩ "/etc/app").2.2.2.2 rfl).1⟩

/-- C7: each of the five window mutations is idempotent: running the same
operation again with the same value gives the same result and final registry,
and in particular a second application after a success succeeds. -/
theorem window_ops_idempotent {α : Type} (reg : Registry α) (label : Option String)
    (op : WinOp α) :
    applyWinOp (applyWinOp reg label op).2 label op = applyWinOp reg label op ∧
    ((applyWinOp reg label op).1 = .ok () →
      (applyWinOp (applyWinOp reg label op).2 label op).1 = .ok ()) := by
  have key : applyWinOp (applyWinOp reg label op).2 label op =
      applyWinOp reg label op := by
    simp only [applyWinOp_eq_modifyReg]
    exact modifyReg_idem reg label op.update (WinOp.update_idem op)
  exact ⟨key, fun h1 => by rw [key]; exact h1⟩

/-- Concrete run of window_ops_idempotent on the demo registry. -/
theorem window_ops_idempotent_check :
    applyWinOp (applyWinOp demoReg (some "main") (WinOp.setShadow true)).2
        (some "main") (WinOp.setShadow true) =
      applyWinOp demoReg (some "main") (WinOp.setShadow true) :=
  (window_ops_idempotent demoReg (some "main") (WinOp.setShadow true)).1

/-- C8: window mutations touching distinct properties commute: the final
registry is order-independent, and resize followed by move (or the reverse)
leaves the window with exactly the requested size and position. -/
theorem window_ops_commute {α : Type} (reg : Registry α) (l1 l2 : Option String)
    (o1 o2 : WinOp α) (h : o1.prop ≠ o2.prop) :
    (applyWinOp (applyWinOp reg l1 o1).2 l2 o2).2 =
      (applyWinOp (applyWinOp reg l2 o2).2 l1 o1).2 ∧
    (∀ (label : Option String) (w0 : WebviewWindow α) (wd ht px py : α),
      getWebviewWindow reg (resolveLabel label) = some w0 →
      getWebviewWindow
          (window_move (window_resize reg ⟨label, wd, ht⟩).2 ⟨label, px, py⟩).2
          (resolveLabel label) =
        some { w0 with size := ⟨wd, ht⟩, position := ⟨px, py⟩ } ∧
      getWebviewWindow
          (window_resize (window_move reg ⟨label, px, py⟩).2 ⟨label, wd, ht⟩).2
          (resolveLabel label) =
        some { w0 with size := ⟨wd, ht⟩, position := ⟨px, py⟩ }) := by
  constructor
  · simp only [applyWinOp_eq_modifyReg, modifyReg_snd]
    exact updateReg_comm reg (resolveLabel l1) (resolveLabel l2) o1.update o2.update
      (WinOp.update_comm h)
  · intro label w0 wd ht px py hw
    constructor
    · rw [window_move_snd, window_resize_snd]
      exact getWebviewWindow_updateReg_of_some _
        (getWebviewWindow_updateReg_of_some _ hw _) _
    · rw [window_resize_snd, window_move_snd]
      exact getWebviewWindow_updateReg_of_some _
        (getWebviewWindow_updateReg_of_some _ hw _) _

/-- Concrete run of window_ops_commute: resize and move on the demo registry. -/
theorem window_ops_commute_check :
    (WinOp.resize (2 : Int) 3).prop ≠ (WinOp.move (4 : Int) 5).prop ∧
    (applyWinOp (applyWinOp demoReg (some "main") (WinOp.resize (2 : Int) 3)).2
        (some "main") (WinOp.move (4 : Int) 5)).2 =
      (applyWinOp (applyWinOp demoReg (some "main") (WinOp.move (4 : Int) 5)).2
        (some "main") (WinOp.resize (2 : Int) 3)).2 :=
  ⟨by decide,
    (window_ops_commute demoReg (some "main") (some "main")
      (WinOp.resize (2 : Int) 3) (WinOp.move (4 : Int) 5) (by decide)).1⟩

/-- C9: omitting the window_label behaves identically to passing the literal
label main, and when that window is absent the error message names main. -/
theorem default_label_is_main {α : Type} (reg : Registry α) (op : WinOp α) :
    applyWinOp reg none op = applyWinOp reg (some "main") op ∧
    (getWebviewWindow reg "main" = none →
      (applyWinOp reg none op).1 = .error (windowNotFoundMsg "main")) ∧
    (∃ p q, windowNotFoundMsg "main" = p ++ "main" ++ q) := by
  refine ⟨by cases op <;> rfl, fun h => ?_,
    ⟨"window " ++ quoteChar.toString, quoteChar.toString ++ " not found",
      windowNotFoundMsg_names_label "main"⟩⟩
  rw [applyWinOp_eq_modifyReg]
  simp [modifyReg, resolveLabel, h]

/-- Concrete run of default_label_is_main on the empty registry. -/
theorem default_label_is_main_check :
    getWebviewWindow ([] : Registry Int) "main" = none ∧
    (applyWinOp ([] : Registry Int) none (WinOp.setDecorations false)).1 =
      .error (windowNotFoundMsg "main") :=
  ⟨rfl, (default_label_is_main ([] : Registry Int) (WinOp.setDecorations false)).2.1 rfl⟩

end Quack
